import Mathlib

/-!
Verification of the SafePaw VM control plane (`src/vm.rs`, `src/cli.rs`,
`src/server.rs`) against its specification.

The Rust code is shallowly embedded: the `serde_json::Value` tree becomes the
inductive `Json` (objects are association lists whose order stands for the
map's iteration order; numbers are modelled as integers, which covers every
value the parsers inspect since `as_u64` rejects floats anyway), fallible
operations return `Except VmError`, and the async process executor becomes an
explicit function argument producing a `CommandOutput`.
-/

/-- JSON tree, mirroring `serde_json::Value` as used by `src/vm.rs`. -/
inductive Json where
  | null : Json
  | bool (b : Bool) : Json
  | num (n : Int) : Json
  | str (s : String) : Json
  | arr (elems : List Json) : Json
  | obj (entries : List (String × Json)) : Json

/-- Key lookup in an object's entry list (first match wins), mirroring
`serde_json::Map::get`. -/
def Json.lookupKey : List (String × Json) → String → Option Json
  | [], _ => none
  | (k, v) :: rest, key => if k = key then some v else Json.lookupKey rest key

/-- `Value::get(key)`: `Some` only on objects containing the key. -/
def Json.get : Json → String → Option Json
  | Json.obj entries, key => Json.lookupKey entries key
  | _, _ => none

/-- `Value::as_object`. -/
def Json.as_object : Json → Option (List (String × Json))
  | Json.obj entries => some entries
  | _ => none

/-- `Value::as_str`. -/
def Json.as_str : Json → Option String
  | Json.str s => some s
  | _ => none

/-- `Value::as_array`. -/
def Json.as_array : Json → Option (List Json)
  | Json.arr elems => some elems
  | _ => none

/-- `Value::as_u64`: succeeds exactly on integer values in `u64` range. -/
def Json.as_u64 : Json → Option Nat
  | Json.num n => if 0 ≤ n ∧ n < 2 ^ 64 then some n.toNat else none
  | _ => none

/-- Decimal value of a digit list (most significant first). -/
def digitsToNat (l : List Char) : Nat :=
  l.foldl (fun acc c => acc * 10 + (c.toNat - 48)) 0

/-- Rust `str::parse::<u64>()`: an optional leading `+`, then one or more
ASCII digits, value within `u64` range; anything else is an error. -/
def parse_u64 (s : String) : Option Nat :=
  let digits :=
    match s.data with
    | '+' :: rest => rest
    | l => l
  if digits ≠ [] ∧ digits.all Char.isDigit then
    if digitsToNat digits < 2 ^ 64 then some (digitsToNat digits) else none
  else none

/-- Rust `str::trim()`: strip leading and trailing whitespace (restricted to
the ASCII whitespace the embedded strings can contain). -/
def str_trim (s : String) : String :=
  ⟨((s.data.dropWhile Char.isWhitespace).reverse.dropWhile Char.isWhitespace).reverse⟩

/-- Whether `pat` is an initial segment of `s` (character lists). -/
def charsHasPre : List Char → List Char → Bool
  | [], _ => true
  | _ :: _, [] => false
  | p :: ps, c :: cs => if p = c then charsHasPre ps cs else false

/-- Whether `pat` occurs contiguously somewhere in the list. -/
def charsContains (pat : List Char) : List Char → Bool
  | [] => charsHasPre pat []
  | c :: cs => if charsHasPre pat (c :: cs) then true else charsContains pat cs

/-- Rust `str::contains(pat)`. -/
def strContainsSub (s pat : String) : Bool :=
  charsContains pat.data s.data

/-- `VmError` from `src/vm.rs` (lines 81-98). `CommandIo` carries the
stringified spawn/await failure. -/
inductive VmError where
  | NotImplemented : VmError
  | CommandIo (detail : String) : VmError
  | CommandFailed (action : String) (status_code : Int) (stderr : String) : VmError
  | InvalidOutput (action : String) (reason : String) : VmError
deriving DecidableEq

/-- The `#[error(...)]` display strings of `VmError` (thiserror derive). -/
def VmError.render : VmError → String
  | VmError.NotImplemented => "VM operation not implemented"
  | VmError.CommandIo detail => "failed to execute command: " ++ detail
  | VmError.CommandFailed action status_code stderr =>
      "multipass " ++ action ++ " failed with status " ++ toString status_code ++ ": " ++ stderr
  | VmError.InvalidOutput action reason =>
      "invalid multipass output for " ++ action ++ ": " ++ reason

/-- `VmStatusResponse` from `src/vm.rs` (lines 21-41); byte counts are `u64`,
modelled as `Nat` (the parser only ever produces values below `2 ^ 64`). -/
structure VmStatusResponse where
  name : String
  state : String
  ipv4 : Option (List String)
  release : Option String
  image_release : Option String
  cpu_count : Option String
  memory_total : Option Nat
  memory_used : Option Nat
  disk_total : Option Nat
  disk_used : Option Nat
deriving DecidableEq

/-- `VmSummary` from `src/vm.rs` (lines 60-68). -/
structure VmSummary where
  name : String
  state : String
  ipv4 : Option (List String)
  release : Option String
deriving DecidableEq

/-- `CommandOutput` from `src/vm.rs` (lines 111-116). -/
structure CommandOutput where
  status_code : Int
  stdout : String
  stderr : String
deriving DecidableEq

/-- `MultipassCli::run_command` (src/vm.rs lines 164-201), with the executor's
outcome passed in explicitly: `Except.error e` stands for the executor failing
to spawn/await the process (mapped to `CommandIo`), `Except.ok output` for a
completed process. Logging statements have no observable effect and are
omitted. -/
def run_command (action : String) (result : Except String CommandOutput) :
    Except VmError CommandOutput :=
  match result with
  | Except.error err => Except.error (VmError.CommandIo err)
  | Except.ok output =>
      if output.status_code ≠ 0 then
        Except.error (VmError.CommandFailed action output.status_code (str_trim output.stderr))
      else
        Except.ok output

/-- The disk extraction of `parse_status_output` (src/vm.rs lines 254-264):
take the first entry of the "disks" object, parse its "total"/"used" numeric
strings; any failure yields `none` for that field. -/
def disk_fields (vm : Json) : Option Nat × Option Nat :=
  match ((vm.get "disks").bind Json.as_object).bind List.head? with
  | none => (none, none)
  | some entry =>
      (((entry.2.get "total").bind Json.as_str).bind parse_u64,
       ((entry.2.get "used").bind Json.as_str).bind parse_u64)

/-- `MultipassCli::parse_status_output` (src/vm.rs lines 203-278), applied to
the `serde_json::Value` tree obtained from stdout (a stdout that fails
`serde_json::from_str` errors with `InvalidOutput` carrying serde's message,
before this function's logic runs; that step is outside the tree model). -/
def parse_status_output (name : String) (value : Json) :
    Except VmError VmStatusResponse :=
  match (value.get "info").bind Json.as_object with
  | none => Except.error (VmError.InvalidOutput "status" "missing info object")
  | some info =>
      match Json.lookupKey info name with
      | none => Except.error (VmError.InvalidOutput "status" ("missing VM entry for " ++ name))
      | some vm =>
          match (vm.get "state").bind Json.as_str with
          | none => Except.error (VmError.InvalidOutput "status" "missing VM state")
          | some state =>
              Except.ok
                { name := name
                  state := state
                  ipv4 := ((vm.get "ipv4").bind Json.as_array).map
                    (fun arr => arr.filterMap Json.as_str)
                  release := (vm.get "release").bind Json.as_str
                  image_release := (vm.get "image_release").bind Json.as_str
                  cpu_count := (vm.get "cpu_count").bind Json.as_str
                  memory_total := ((vm.get "memory").bind (fun m => m.get "total")).bind Json.as_u64
                  memory_used := ((vm.get "memory").bind (fun m => m.get "used")).bind Json.as_u64
                  disk_total := (disk_fields vm).1
                  disk_used := (disk_fields vm).2 }

/-- The element loop of `parse_list_output` (src/vm.rs lines 294-329): the
first element missing a string "name" or "state" aborts the whole parse. -/
def parse_list_items : List Json → Except VmError (List VmSummary)
  | [] => Except.ok []
  | item :: rest =>
      match (item.get "name").bind Json.as_str with
      | none => Except.error (VmError.InvalidOutput "list" "missing VM name")
      | some name =>
          match (item.get "state").bind Json.as_str with
          | none => Except.error (VmError.InvalidOutput "list" "missing VM state")
          | some state =>
              match parse_list_items rest with
              | Except.error e => Except.error e
              | Except.ok vms =>
                  Except.ok
                    ({ name := name
                       state := state
                       ipv4 := ((item.get "ipv4").bind Json.as_array).map
                         (fun arr => arr.filterMap Json.as_str)
                       release := (item.get "release").bind Json.as_str } :: vms)

/-- `MultipassCli::parse_list_output` (src/vm.rs lines 280-332), on the parsed
tree. -/
def parse_list_output (value : Json) : Except VmError (List VmSummary) :=
  match (value.get "list").bind Json.as_array with
  | none => Except.error (VmError.InvalidOutput "list" "missing list array")
  | some items => parse_list_items items

/-- The executor interface (`CommandExecutor::run`, src/vm.rs lines 128-131):
given a program and its arguments, either the raw process result or a
spawn/await failure message. -/
def CommandExec : Type := String → List String → Except String CommandOutput

/-- Argument vector of `Multipass::launch` for `MultipassCli` (src/vm.rs 340-347). -/
def launch_args (name : String) : List String := ["launch", "--name", name]

/-- Argument vector of `Multipass::start` (src/vm.rs 349-353). -/
def start_args (name : String) : List String := ["start", name]

/-- Argument vector of `Multipass::stop` (src/vm.rs 355-359). -/
def stop_args (name : String) : List String := ["stop", name]

/-- Argument vector of `Multipass::restart` (src/vm.rs 361-365). -/
def restart_args (name : String) : List String := ["restart", name]

/-- Argument vector of `Multipass::delete` (src/vm.rs 367-371). -/
def delete_args (name : String) : List String := ["delete", name, "--purge"]

/-- Argument vector of `Multipass::info` (src/vm.rs 373-387). -/
def info_args (name : String) : List String := ["info", name, "--format", "json"]

/-- Argument vector of `Multipass::list` (src/vm.rs 389-394). -/
def list_args : List String := ["list", "--format", "json"]

/-- `MultipassCli::launch`: build the launch vector, run it, discard stdout. -/
def multipass_launch (exec : CommandExec) (name : String) : Except VmError Unit :=
  (run_command "launch" (exec "multipass" (launch_args name))).map (fun _ => ())

/-- `MultipassCli::start`. -/
def multipass_start (exec : CommandExec) (name : String) : Except VmError Unit :=
  (run_command "start" (exec "multipass" (start_args name))).map (fun _ => ())

/-- `MultipassCli::stop`. -/
def multipass_stop (exec : CommandExec) (name : String) : Except VmError Unit :=
  (run_command "stop" (exec "multipass" (stop_args name))).map (fun _ => ())

/-- `MultipassCli::restart`. -/
def multipass_restart (exec : CommandExec) (name : String) : Except VmError Unit :=
  (run_command "restart" (exec "multipass" (restart_args name))).map (fun _ => ())

/-- `MultipassCli::delete`. -/
def multipass_delete (exec : CommandExec) (name : String) : Except VmError Unit :=
  (run_command "delete" (exec "multipass" (delete_args name))).map (fun _ => ())

/-- Command stage of `MultipassCli::info` (the stdout then goes through
`parse_status_output`). -/
def multipass_info_run (exec : CommandExec) (name : String) : Except VmError CommandOutput :=
  run_command "info" (exec "multipass" (info_args name))

/-- Command stage of `MultipassCli::list` (the stdout then goes through
`parse_list_output`). -/
def multipass_list_run (exec : CommandExec) : Except VmError CommandOutput :=
  run_command "list" (exec "multipass" list_args)

/-- `format_vm_summary` (src/cli.rs lines 172-186). -/
def format_vm_summary (vm : VmSummary) : String :=
  let parts := [vm.name, vm.state]
  let parts :=
    match vm.ipv4 with
    | some addrs => if addrs.isEmpty then parts else parts ++ [String.intercalate "," addrs]
    | none => parts
  let parts :=
    match vm.release with
    | some r => parts ++ [r]
    | none => parts
  String.intercalate " | " parts

/-- Lines pushed by `format_vm_info` (src/cli.rs lines 188-211) before the
memory/disk lines: Name and State always, then IPv4 (if present and
non-empty), Release, Image, CPUs (each if present). -/
def info_base_lines (info : VmStatusResponse) : List String :=
  ["Name:  " ++ info.name, "State: " ++ info.state] ++
  (match info.ipv4 with
    | some addrs =>
        if addrs.isEmpty then [] else ["IPv4:  " ++ String.intercalate ", " addrs]
    | none => []) ++
  (match info.release with
    | some r => ["Release: " ++ r]
    | none => []) ++
  (match info.image_release with
    | some ir => ["Image:   " ++ ir]
    | none => []) ++
  (match info.cpu_count with
    | some c => ["CPUs:  " ++ c]
    | none => [])

/-- The memory line of `format_vm_info` (src/cli.rs lines 212-217), emitted
only when both totals are present: bytes to whole MiB by integer division,
plus the percentage `pct used total`. -/
def memory_lines (pct : Nat → Nat → Nat) (info : VmStatusResponse) : List String :=
  match info.memory_total, info.memory_used with
  | some total, some used =>
      ["Memory: " ++ toString (used / 1024 / 1024) ++ " MiB / " ++
        toString (total / 1024 / 1024) ++ " MiB (" ++ toString (pct used total) ++ "%)"]
  | _, _ => []

/-- The disk line of `format_vm_info` (src/cli.rs lines 219-224): bytes to
whole GiB by integer division, plus the percentage `pct used total`. -/
def disk_lines (pct : Nat → Nat → Nat) (info : VmStatusResponse) : List String :=
  match info.disk_total, info.disk_used with
  | some total, some used =>
      ["Disk:   " ++ toString (used / 1024 / 1024 / 1024) ++ " GiB / " ++
        toString (total / 1024 / 1024 / 1024) ++ " GiB (" ++ toString (pct used total) ++ "%)"]
  | _, _ => []

/-- `format_vm_info` (src/cli.rs lines 188-227): the sequential `lines.push`
calls of the source produce exactly this concatenation, in this order. The
source computes the memory/disk percentage as
`(used as f64 / total as f64 * 100.0) as u64`; that floating-point expression
is the one step not representable in this embedding, so it is abstracted as
the parameter `pct used total`. Every other step (field order, integer
division for MiB/GiB, the exact line texts) is translated directly. -/
def format_vm_info (pct : Nat → Nat → Nat) (info : VmStatusResponse) : List String :=
  info_base_lines info ++ memory_lines pct info ++ disk_lines pct info

/-- The `list` arm of `run_vm_subcommand` (src/cli.rs lines 261-271): one
formatted line per VM, or the single "No VMs found" line. -/
def run_vm_list (vms : List VmSummary) : List String :=
  if vms.isEmpty then ["No VMs found"] else vms.map format_vm_summary

/-- The `Multipass` trait (src/vm.rs lines 100-109) restricted to the
lifecycle verbs the HTTP handlers under scrutiny dispatch to, as a record of
outcome functions (a concrete record plays the role of a trait object). -/
structure MultipassModel where
  launch : String → Except VmError Unit
  start : String → Except VmError Unit
  stop : String → Except VmError Unit
  restart : String → Except VmError Unit
  delete : String → Except VmError Unit

/-- `terminate_vm` (src/vm.rs lines 444-454), the handler `app` wires to
DELETE `/v1/vm/{name}` (src/vm.rs lines 402-409): it calls `Multipass::stop`
and maps success to 204 NO_CONTENT, failure to 500. -/
def terminate_vm (m : MultipassModel) (name : String) : Except Nat Nat :=
  match m.stop name with
  | Except.ok _ => Except.ok 204
  | Except.error _ => Except.error 500

/-- Success/failure envelope of the handlers module (spec sections 4.4, 6). -/
structure HandlerResult where
  success : Bool
  message : String
deriving DecidableEq

/-- Modelled from the spec: the `handlers` module that `src/server.rs` imports
(`use crate::vm::{VmApi, handlers}`) is not present under `src/`. Per spec
section 4.4, each lifecycle handler invokes the Control Facade operation of
the same verb and converts the outcome into a `{success, message}` envelope;
per the section 9 open question, of the two observed REST surfaces the one in
`src/server.rs` is the one whose DELETE calls the tool's delete (the other,
`src/vm.rs`, calls stop). -/
def handlers.delete_vm (m : MultipassModel) (name : String) : HandlerResult :=
  match m.delete name with
  | Except.ok _ => { success := true, message := "deleted " ++ name }
  | Except.error e => { success := false, message := e.render }

/-- `delete_vm` (src/server.rs lines 197-215), the handler `create_api_router`
wires to DELETE `/vms/{name}` (src/server.rs line 221): invoke
`handlers::delete_vm`, map a success envelope to HTTP 200 and a failure
envelope to HTTP 500. Returns the status code and the envelope's success flag. -/
def server_delete_vm (m : MultipassModel) (name : String) : Nat × Bool :=
  let result := handlers.delete_vm m name
  if result.success then (200, true) else (500, false)

/-- Per-element extraction underlying the list loop: total function giving the
summary the loop builds for an element that has its required fields. -/
def summary_of_item (item : Json) : VmSummary :=
  { name := ((item.get "name").bind Json.as_str).getD ""
    state := ((item.get "state").bind Json.as_str).getD ""
    ipv4 := ((item.get "ipv4").bind Json.as_array).map (fun arr => arr.filterMap Json.as_str)
    release := (item.get "release").bind Json.as_str }

/-- The spec's notion of the optional `ipv4` field being present in a VM's
info entry: the key maps to a JSON array. -/
def ipv4_present (vm : Json) : Prop :=
  ∃ elems, vm.get "ipv4" = some (Json.arr elems)

/-- The spec's notion of an optional direct string field (`release`,
`image_release`, `cpu_count`) being present: the key maps to a JSON string. -/
def str_field_present (vm : Json) (key : String) : Prop :=
  ∃ s, vm.get key = some (Json.str s)

/-- The spec's notion of `memory_total`/`memory_used` being present: a nested
"memory" object whose `key` is an integer in `u64` range. -/
def memory_field_present (vm : Json) (key : String) : Prop :=
  ∃ m n, vm.get "memory" = some m ∧ m.get key = some (Json.num n) ∧
    0 ≤ n ∧ n < 2 ^ 64

/-- The spec's notion of `disk_total`/`disk_used` being present: the first
entry of the "disks" object has `key` as a numeric string that parses as a
`u64`. -/
def disk_field_present (vm : Json) (key : String) : Prop :=
  ∃ entry, ((vm.get "disks").bind Json.as_object).bind List.head? = some entry ∧
    ∃ s n, entry.2.get key = some (Json.str s) ∧ parse_u64 s = some n

/-- A `Multipass` instance whose stop fails and whose delete succeeds; used to
observe which operation a handler dispatches to. -/
def probe_stop_fails : MultipassModel :=
  { launch := fun _ => Except.ok ()
    start := fun _ => Except.ok ()
    stop := fun _ => Except.error VmError.NotImplemented
    restart := fun _ => Except.ok ()
    delete := fun _ => Except.ok () }

/-- A `Multipass` instance whose delete fails and whose stop succeeds. -/
def probe_delete_fails : MultipassModel :=
  { launch := fun _ => Except.ok ()
    start := fun _ => Except.ok ()
    stop := fun _ => Except.ok ()
    restart := fun _ => Except.ok ()
    delete := fun _ => Except.error VmError.NotImplemented }

/-- The first disk entry of the representative info tree: "total" parses as a
`u64`, "used" does not. -/
def info_fixture_disk : Json :=
  Json.obj [("total", Json.str "5368709120"), ("used", Json.str "4.1GB")]

/-- The agent-1 entry of the representative info tree, with a mix of present
and absent optional fields: `image_release` is absent, `memory.used` is
absent, and the first disk's "used" is not a parseable numeric string. -/
def info_fixture_entry : Json :=
  Json.obj [
    ("state", Json.str "Running"),
    ("ipv4", Json.arr [Json.str "10.0.0.1", Json.str "10.0.0.2"]),
    ("release", Json.str "22.04"),
    ("cpu_count", Json.str "2"),
    ("memory", Json.obj [("total", Json.num 2147483648)]),
    ("disks", Json.obj [("sda1", info_fixture_disk)])]

/-- A representative multipass `info --format json` tree for VM agent-1. -/
def info_fixture : Json :=
  Json.obj [("errors", Json.arr []), ("info", Json.obj [("agent-1", info_fixture_entry)])]

/-- A list tree whose second element is missing its "state" string. -/
def list_fixture_bad : Json :=
  Json.obj [("list", Json.arr [
    Json.obj [("name", Json.str "agent-1"), ("state", Json.str "Running")],
    Json.obj [("name", Json.str "agent-2")]])]

/-- Exact truncated percentage. At arguments where every step of the source's
f64 pipeline (`used as f64 / total as f64 * 100.0`) is exactly representable
in binary64 — in particular at the powers of two used below — the pipeline
computes precisely this value. -/
def exact_percent (used total : Nat) : Nat :=
  used * 100 / total

/-- A list tree all of whose elements carry "name" and "state". -/
def list_fixture_good : Json :=
  Json.obj [("list", Json.arr [
    Json.obj [("name", Json.str "agent-1"), ("state", Json.str "Running"),
      ("ipv4", Json.arr [Json.str "10.0.0.1"])],
    Json.obj [("name", Json.str "agent-2"), ("state", Json.str "Stopped")]])]

example :
    parse_status_output "agent-1"
      (Json.obj [("errors", Json.arr []),
        ("info", Json.obj [("agent-1",
          Json.obj [("state", Json.str "Running"), ("release", Json.str "22.04")])])]) =
    Except.ok
      { name := "agent-1", state := "Running", ipv4 := none, release := some "22.04"
        image_release := none, cpu_count := none, memory_total := none
        memory_used := none, disk_total := none, disk_used := none } := by
  rfl

example :
    parse_list_output (Json.obj [("list", Json.arr [Json.obj [("name", Json.str "a")]])]) =
    Except.error (VmError.InvalidOutput "list" "missing VM state") := by
  rfl

theorem str_extract_isSome (vm : Json) (key : String) :
    ((vm.get key).bind Json.as_str).isSome ↔ str_field_present vm key := by
  unfold str_field_present
  cases h : vm.get key with
  | none => simp [h]
  | some j => cases j <;> simp [h, Json.as_str]

theorem ipv4_extract_isSome (vm : Json) :
    (((vm.get "ipv4").bind Json.as_array).map
      (fun arr => arr.filterMap Json.as_str)).isSome ↔ ipv4_present vm := by
  unfold ipv4_present
  cases h : vm.get "ipv4" with
  | none => simp [h]
  | some j => cases j <;> simp [h, Json.as_array]

theorem mem_extract_isSome (vm : Json) (key : String) :
    (((vm.get "memory").bind (fun m => m.get key)).bind Json.as_u64).isSome ↔
      memory_field_present vm key := by
  unfold memory_field_present
  cases h : vm.get "memory" with
  | none => simp [h]
  | some m =>
    cases h2 : m.get key with
    | none => simp [h, h2]
    | some j =>
      cases j with
      | num n => by_cases hc : 0 ≤ n ∧ n < 2 ^ 64 <;>
          simp [h, h2, Json.as_u64, hc]
      | null => simp [h, h2, Json.as_u64]
      | bool b => simp [h, h2, Json.as_u64]
      | str s => simp [h, h2, Json.as_u64]
      | arr elems => simp [h, h2, Json.as_u64]
      | obj entries => simp [h, h2, Json.as_u64]

theorem str_parse_chain_isSome (o : Option Json) :
    ((o.bind Json.as_str).bind parse_u64).isSome ↔
      ∃ s n, o = some (Json.str s) ∧ parse_u64 s = some n := by
  cases o with
  | none => simp
  | some j => cases j <;> simp [Json.as_str, Option.isSome_iff_exists]

theorem disk_fields_fst_isSome (vm : Json) :
    (disk_fields vm).1.isSome ↔ disk_field_present vm "total" := by
  unfold disk_fields disk_field_present
  cases h : ((vm.get "disks").bind Json.as_object).bind List.head? with
  | none => simp [h]
  | some entry => simp [h, str_parse_chain_isSome]

theorem disk_fields_snd_isSome (vm : Json) :
    (disk_fields vm).2.isSome ↔ disk_field_present vm "used" := by
  unfold disk_fields disk_field_present
  cases h : ((vm.get "disks").bind Json.as_object).bind List.head? with
  | none => simp [h]
  | some entry => simp [h, str_parse_chain_isSome]

/-- C2: an info tree missing the top-level "info" object, or missing the
entry keyed by the requested VM name, or whose entry has no string "state"
field, makes `parse_status_output` fail with `InvalidOutput` whose action is
"status" and whose reason names the missing piece. -/
theorem status_parse_missing_required_fails (name : String) (value : Json) :
    ((value.get "info").bind Json.as_object = none →
      parse_status_output name value =
        Except.error (VmError.InvalidOutput "status" "missing info object")) ∧
    (∀ info, (value.get "info").bind Json.as_object = some info →
      Json.lookupKey info name = none →
      parse_status_output name value =
        Except.error (VmError.InvalidOutput "status" ("missing VM entry for " ++ name))) ∧
    (∀ info vm, (value.get "info").bind Json.as_object = some info →
      Json.lookupKey info name = some vm →
      (vm.get "state").bind Json.as_str = none →
      parse_status_output name value =
        Except.error (VmError.InvalidOutput "status" "missing VM state")) := by
  refine ⟨?_, ?_, ?_⟩
  · intro h
    simp [parse_status_output, h]
  · intro info h1 h2
    simp [parse_status_output, h1, h2]
  · intro info vm h1 h2 h3
    simp [parse_status_output, h1, h2, h3]

/-- C2 witness: concrete trees for all three missing-required-field cases. -/
theorem status_parse_missing_required_fails_witness :
    parse_status_output "agent-1" (Json.obj []) =
      Except.error (VmError.InvalidOutput "status" "missing info object") ∧
    parse_status_output "agent-1" (Json.obj [("info", Json.obj [])]) =
      Except.error (VmError.InvalidOutput "status" "missing VM entry for agent-1") ∧
    parse_status_output "agent-1"
        (Json.obj [("info", Json.obj [("agent-1", Json.obj [])])]) =
      Except.error (VmError.InvalidOutput "status" "missing VM state") :=
  ⟨(status_parse_missing_required_fails "agent-1" (Json.obj [])).1 rfl,
   (status_parse_missing_required_fails "agent-1" (Json.obj [("info", Json.obj [])])).2.1
     [] rfl rfl,
   (status_parse_missing_required_fails "agent-1"
       (Json.obj [("info", Json.obj [("agent-1", Json.obj [])])])).2.2
     [("agent-1", Json.obj [])] (Json.obj []) rfl rfl rfl⟩

/-- C3: whenever the executed command exits non-zero, the adapter fails with
`CommandFailed` carrying the action, the exit code, and the trimmed stderr;
in particular a launch with exit 1 and stderr "launch failed" yields
`CommandFailed "launch" 1 "launch failed"`, whose rendered message contains
both "launch" and "launch failed". -/
theorem nonzero_exit_maps_to_command_failed (action : String)
    (result : Except String CommandOutput) (output : CommandOutput)
    (hres : result = Except.ok output) (hcode : output.status_code ≠ 0) :
    run_command action result =
      Except.error
        (VmError.CommandFailed action output.status_code (str_trim output.stderr)) ∧
    multipass_launch (fun _ _ => Except.ok ⟨1, "", "launch failed"⟩) "agent-1" =
      Except.error (VmError.CommandFailed "launch" 1 "launch failed") ∧
    strContainsSub (VmError.CommandFailed "launch" 1 "launch failed").render
      "launch" = true ∧
    strContainsSub (VmError.CommandFailed "launch" 1 "launch failed").render
      "launch failed" = true := by
  refine ⟨?_, rfl, by decide, by decide⟩
  subst hres
  simp [run_command, hcode]

/-- C3 witness: a concrete failing launch, with stderr trimmed. -/
theorem nonzero_exit_maps_to_command_failed_witness :
    run_command "launch" (Except.ok ⟨1, "", " launch failed "⟩) =
      Except.error (VmError.CommandFailed "launch" 1 "launch failed") ∧
    strContainsSub (VmError.CommandFailed "launch" 1 "launch failed").render
      "launch failed" = true :=
  have h := nonzero_exit_maps_to_command_failed "launch"
    (Except.ok ⟨1, "", " launch failed "⟩) ⟨1, "", " launch failed "⟩ rfl (by decide)
  ⟨h.1, h.2.2.2⟩

/-- C4: each lifecycle operation builds exactly its fixed argument vector,
passes the VM name through as a single unmodified element, and hands exactly
that vector to the executor. -/
theorem lifecycle_arg_vectors (name : String) (exec : CommandExec) :
    launch_args name = ["launch", "--name", name] ∧ name ∈ launch_args name ∧
    start_args name = ["start", name] ∧ name ∈ start_args name ∧
    stop_args name = ["stop", name] ∧ name ∈ stop_args name ∧
    restart_args name = ["restart", name] ∧ name ∈ restart_args name ∧
    delete_args name = ["delete", name, "--purge"] ∧ name ∈ delete_args name ∧
    info_args name = ["info", name, "--format", "json"] ∧ name ∈ info_args name ∧
    list_args = ["list", "--format", "json"] ∧
    multipass_launch exec name =
      (run_command "launch" (exec "multipass" ["launch", "--name", name])).map
        (fun _ => ()) ∧
    multipass_start exec name =
      (run_command "start" (exec "multipass" ["start", name])).map (fun _ => ()) ∧
    multipass_stop exec name =
      (run_command "stop" (exec "multipass" ["stop", name])).map (fun _ => ()) ∧
    multipass_restart exec name =
      (run_command "restart" (exec "multipass" ["restart", name])).map (fun _ => ()) ∧
    multipass_delete exec name =
      (run_command "delete" (exec "multipass" ["delete", name, "--purge"])).map
        (fun _ => ()) ∧
    multipass_info_run exec name =
      run_command "info" (exec "multipass" ["info", name, "--format", "json"]) ∧
    multipass_list_run exec =
      run_command "list" (exec "multipass" ["list", "--format", "json"]) := by
  refine ⟨rfl, ?_, rfl, ?_, rfl, ?_, rfl, ?_, rfl, ?_, rfl, ?_, rfl, rfl, rfl, rfl,
    rfl, rfl, rfl, rfl⟩ <;>
    simp [launch_args, start_args, stop_args, restart_args, delete_args, info_args]

/-- C1: for every VM name and info tree whose "info" object has an entry for
the name with a string "state", parsing succeeds; each optional field of the
result is populated from the corresponding JSON location and is `some` exactly
when that location is present with the expected shape, so absence yields
`none`, never an error. -/
theorem status_parse_success_exact_fields (name st : String) (value vm : Json)
    (info : List (String × Json))
    (hinfo : (value.get "info").bind Json.as_object = some info)
    (hvm : Json.lookupKey info name = some vm)
    (hstate : (vm.get "state").bind Json.as_str = some st) :
    ∃ r, parse_status_output name value = Except.ok r ∧
      r.name = name ∧ r.state = st ∧
      r.ipv4 = ((vm.get "ipv4").bind Json.as_array).map
        (fun arr => arr.filterMap Json.as_str) ∧
      r.release = (vm.get "release").bind Json.as_str ∧
      r.image_release = (vm.get "image_release").bind Json.as_str ∧
      r.cpu_count = (vm.get "cpu_count").bind Json.as_str ∧
      r.memory_total = ((vm.get "memory").bind (fun m => m.get "total")).bind Json.as_u64 ∧
      r.memory_used = ((vm.get "memory").bind (fun m => m.get "used")).bind Json.as_u64 ∧
      r.disk_total = (disk_fields vm).1 ∧
      r.disk_used = (disk_fields vm).2 ∧
      (r.ipv4.isSome ↔ ipv4_present vm) ∧
      (r.release.isSome ↔ str_field_present vm "release") ∧
      (r.image_release.isSome ↔ str_field_present vm "image_release") ∧
      (r.cpu_count.isSome ↔ str_field_present vm "cpu_count") ∧
      (r.memory_total.isSome ↔ memory_field_present vm "total") ∧
      (r.memory_used.isSome ↔ memory_field_present vm "used") ∧
      (r.disk_total.isSome ↔ disk_field_present vm "total") ∧
      (r.disk_used.isSome ↔ disk_field_present vm "used") := by
  have hp : parse_status_output name value = Except.ok
      { name := name
        state := st
        ipv4 := ((vm.get "ipv4").bind Json.as_array).map
          (fun arr => arr.filterMap Json.as_str)
        release := (vm.get "release").bind Json.as_str
        image_release := (vm.get "image_release").bind Json.as_str
        cpu_count := (vm.get "cpu_count").bind Json.as_str
        memory_total := ((vm.get "memory").bind (fun m => m.get "total")).bind Json.as_u64
        memory_used := ((vm.get "memory").bind (fun m => m.get "used")).bind Json.as_u64
        disk_total := (disk_fields vm).1
        disk_used := (disk_fields vm).2 } := by
    simp [parse_status_output, hinfo, hvm, hstate]
  exact ⟨_, hp, rfl, rfl, rfl, rfl, rfl, rfl, rfl, rfl, rfl, rfl,
    ipv4_extract_isSome vm, str_extract_isSome vm "release",
    str_extract_isSome vm "image_release", str_extract_isSome vm "cpu_count",
    mem_extract_isSome vm "total", mem_extract_isSome vm "used",
    disk_fields_fst_isSome vm, disk_fields_snd_isSome vm⟩

/-- C1 witness: the representative fixture parses; present fields (ipv4) are
`some`, absent fields (image_release) and unparseable fields (disk used) are
`none`. -/
theorem status_parse_success_exact_fields_witness :
    ∃ r, parse_status_output "agent-1" info_fixture = Except.ok r ∧
      (r.ipv4.isSome ↔ ipv4_present info_fixture_entry) ∧
      (r.image_release.isSome ↔ str_field_present info_fixture_entry "image_release") ∧
      (r.disk_used.isSome ↔ disk_field_present info_fixture_entry "used") := by
  obtain ⟨r, h1, _, _, _, _, _, _, _, _, _, _, h12, _, h14, _, _, _, _, h19⟩ :=
    status_parse_success_exact_fields "agent-1" "Running" info_fixture
      info_fixture_entry [("agent-1", info_fixture_entry)] rfl rfl rfl
  exact ⟨r, h1, h12, h14, h19⟩

/-- C5: on any accepted info tree whose entry carries a "disks" object, the
disk fields come from the object's first entry by parsing its "total"/"used"
numeric strings; a missing, non-string, or unparseable field is `none` in the
result and parsing still succeeds. -/
theorem disk_fields_from_first_entry (name st : String) (value vm : Json)
    (info : List (String × Json)) (entry : String × Json) (rest : List (String × Json))
    (hinfo : (value.get "info").bind Json.as_object = some info)
    (hvm : Json.lookupKey info name = some vm)
    (hstate : (vm.get "state").bind Json.as_str = some st)
    (hdisks : (vm.get "disks").bind Json.as_object = some (entry :: rest)) :
    ∃ r, parse_status_output name value = Except.ok r ∧
      r.disk_total = ((entry.2.get "total").bind Json.as_str).bind parse_u64 ∧
      r.disk_used = ((entry.2.get "used").bind Json.as_str).bind parse_u64 ∧
      (r.disk_total = none ↔ ¬disk_field_present vm "total") ∧
      (r.disk_used = none ↔ ¬disk_field_present vm "used") := by
  have hd : disk_fields vm =
      (((entry.2.get "total").bind Json.as_str).bind parse_u64,
       ((entry.2.get "used").bind Json.as_str).bind parse_u64) := by
    simp [disk_fields, hdisks]
  obtain ⟨r, h1, _, _, _, _, _, _, _, _, h10, h11, _, _, _, _, _, _, h18, h19⟩ :=
    status_parse_success_exact_fields name st value vm info hinfo hvm hstate
  refine ⟨r, h1, ?_, ?_, ?_, ?_⟩
  · rw [h10, hd]
  · rw [h11, hd]
  · rw [← h18, Option.not_isSome_iff_eq_none]
  · rw [← h19, Option.not_isSome_iff_eq_none]

/-- C5 witness: on the fixture, disk total parses to bytes while the
unparseable disk used is `none`, and parsing succeeds. -/
theorem disk_fields_from_first_entry_witness :
    ∃ r, parse_status_output "agent-1" info_fixture = Except.ok r ∧
      r.disk_total = some 5368709120 ∧ r.disk_used = none := by
  obtain ⟨r, h1, h2, h3, _, _⟩ := disk_fields_from_first_entry "agent-1" "Running"
    info_fixture info_fixture_entry [("agent-1", info_fixture_entry)]
    ("sda1", info_fixture_disk) [] rfl rfl rfl rfl
  refine ⟨r, h1, ?_, ?_⟩
  · rw [h2]; rfl
  · rw [h3]; rfl

theorem parse_list_items_err (items : List Json)
    (h : ∃ item ∈ items, (item.get "name").bind Json.as_str = none ∨
      (item.get "state").bind Json.as_str = none) :
    ∃ reason, parse_list_items items =
      Except.error (VmError.InvalidOutput "list" reason) := by
  induction items with
  | nil => simp at h
  | cons item rest ih =>
    cases hname : (item.get "name").bind Json.as_str with
    | none => exact ⟨"missing VM name", by simp [parse_list_items, hname]⟩
    | some nm =>
      cases hstate : (item.get "state").bind Json.as_str with
      | none => exact ⟨"missing VM state", by simp [parse_list_items, hname, hstate]⟩
      | some st =>
        obtain ⟨x, hx, hbad⟩ := h
        rcases List.mem_cons.mp hx with rfl | hxr
        · rcases hbad with hb | hb
          · rw [hname] at hb
            exact absurd hb (by simp)
          · rw [hstate] at hb
            exact absurd hb (by simp)
        · obtain ⟨reason, hr⟩ := ih ⟨x, hxr, hbad⟩
          exact ⟨reason, by simp [parse_list_items, hname, hstate, hr]⟩

theorem parse_list_items_ok (items : List Json)
    (h : ∀ item ∈ items, ((item.get "name").bind Json.as_str).isSome ∧
      ((item.get "state").bind Json.as_str).isSome) :
    parse_list_items items = Except.ok (items.map summary_of_item) := by
  induction items with
  | nil => rfl
  | cons item rest ih =>
    obtain ⟨hn, hs⟩ := h item (List.mem_cons_self item rest)
    obtain ⟨nm, hnm⟩ := Option.isSome_iff_exists.mp hn
    obtain ⟨st, hst⟩ := Option.isSome_iff_exists.mp hs
    have hrest := ih (fun x hx => h x (List.mem_cons_of_mem item hx))
    simp [parse_list_items, hnm, hst, hrest, summary_of_item]

/-- C6: list parsing demands a top-level "list" array; an element missing its
string "name" or "state" fails the whole operation with `InvalidOutput` for
action "list" (no partial result); when every element has both, the result
has one summary per element in the same order. -/
theorem list_parse_all_or_nothing (value : Json) :
    ((value.get "list").bind Json.as_array = none →
      parse_list_output value =
        Except.error (VmError.InvalidOutput "list" "missing list array")) ∧
    (∀ items, (value.get "list").bind Json.as_array = some items →
      ((∃ item ∈ items, (item.get "name").bind Json.as_str = none ∨
          (item.get "state").bind Json.as_str = none) →
        ∃ reason, parse_list_output value =
          Except.error (VmError.InvalidOutput "list" reason)) ∧
      ((∀ item ∈ items, ((item.get "name").bind Json.as_str).isSome ∧
          ((item.get "state").bind Json.as_str).isSome) →
        parse_list_output value = Except.ok (items.map summary_of_item))) := by
  refine ⟨?_, ?_⟩
  · intro h
    simp [parse_list_output, h]
  · intro items h
    refine ⟨?_, ?_⟩
    · intro hbad
      obtain ⟨reason, hr⟩ := parse_list_items_err items hbad
      exact ⟨reason, by simp [parse_list_output, h, hr]⟩
    · intro hgood
      simp [parse_list_output, h, parse_list_items_ok items hgood]

/-- C6 witness: a tree whose second element lacks "state" fails wholesale; a
tree with all required fields yields one in-order summary per element. -/
theorem list_parse_all_or_nothing_witness :
    (∃ reason, parse_list_output list_fixture_bad =
      Except.error (VmError.InvalidOutput "list" reason)) ∧
    parse_list_output list_fixture_good =
      Except.ok [
        { name := "agent-1", state := "Running", ipv4 := some ["10.0.0.1"], release := none },
        { name := "agent-2", state := "Stopped", ipv4 := none, release := none }] := by
  constructor
  · exact ((list_parse_all_or_nothing list_fixture_bad).2 _ rfl).1
      ⟨Json.obj [("name", Json.str "agent-2")],
        List.mem_cons_of_mem _ (List.mem_cons_self _ _), Or.inr rfl⟩
  · exact ((list_parse_all_or_nothing list_fixture_good).2 _ rfl).2 (by decide)

theorem intercalate_two (sep a b : String) :
    String.intercalate sep [a, b] = a ++ sep ++ b := rfl

theorem intercalate_three (sep a b c : String) :
    String.intercalate sep [a, b, c] = a ++ sep ++ b ++ sep ++ c := rfl

theorem intercalate_four (sep a b c d : String) :
    String.intercalate sep [a, b, c, d] = a ++ sep ++ b ++ sep ++ c ++ sep ++ d := rfl

theorem ne_nil_isEmpty_false {α : Type} (l : List α) (h : l ≠ []) :
    l.isEmpty = false := by
  cases l with
  | nil => exact absurd rfl h
  | cons a as => rfl

/-- C9: the interactive formatter renders a summary as name and state joined
by " | ", followed by the comma-joined ipv4 list only when present (and
non-empty) and by the release only when present; the list subcommand prints
one such line per VM in order, or the single "No VMs found" line when the
list is empty. -/
theorem summary_and_list_rendering (name st rel : String) (addrs : List String)
    (vms : List VmSummary) (haddrs : addrs ≠ []) (hvms : vms ≠ []) :
    format_vm_summary { name := name, state := st, ipv4 := none, release := none } =
      name ++ " | " ++ st ∧
    format_vm_summary { name := name, state := st, ipv4 := some addrs, release := none } =
      name ++ " | " ++ st ++ " | " ++ String.intercalate "," addrs ∧
    format_vm_summary { name := name, state := st, ipv4 := none, release := some rel } =
      name ++ " | " ++ st ++ " | " ++ rel ∧
    format_vm_summary { name := name, state := st, ipv4 := some addrs, release := some rel } =
      name ++ " | " ++ st ++ " | " ++ String.intercalate "," addrs ++ " | " ++ rel ∧
    run_vm_list [] = ["No VMs found"] ∧
    run_vm_list vms = vms.map format_vm_summary := by
  have he := ne_nil_isEmpty_false addrs haddrs
  have hv := ne_nil_isEmpty_false vms hvms
  refine ⟨rfl, ?_, rfl, ?_, rfl, ?_⟩
  · simp [format_vm_summary, he, intercalate_three]
  · simp [format_vm_summary, he, intercalate_four]
  · simp [run_vm_list, hv]

/-- C9 witness: the spec's concrete examples, with and without optional
fields, plus the empty-list line. -/
theorem summary_and_list_rendering_witness :
    format_vm_summary
        { name := "agent-1", state := "Running", ipv4 := some ["10.0.0.1"],
          release := some "22.04" } = "agent-1 | Running | 10.0.0.1 | 22.04" ∧
    format_vm_summary
        { name := "agent-1", state := "Running", ipv4 := none, release := none } =
      "agent-1 | Running" ∧
    run_vm_list [] = ["No VMs found"] :=
  have h := summary_and_list_rendering "agent-1" "Running" "22.04" ["10.0.0.1"]
    [{ name := "agent-1", state := "Running", ipv4 := none, release := none }]
    (by decide) (by simp)
  ⟨h.2.2.2.1, h.1, h.2.2.2.2.1⟩

/-- C10: with both memory fields present, the info formatter emits a memory
line converting bytes to whole MiB by integer division with the percentage
value `pct used total` (the source's f64 pipeline); at memory_total 2 GiB and
memory_used 1 GiB, where the f64 pipeline is exact and yields 50, the full
rendering is exactly "Memory: 1024 MiB / 2048 MiB (50%)". -/
theorem info_memory_rendering (pct : Nat → Nat → Nat) (info : VmStatusResponse)
    (total used : Nat) (ht : info.memory_total = some total)
    (hu : info.memory_used = some used)
    (hpct : pct (1024 ^ 3) (2 * 1024 ^ 3) = 50) :
    ("Memory: " ++ toString (used / 1024 / 1024) ++ " MiB / " ++
        toString (total / 1024 / 1024) ++ " MiB (" ++ toString (pct used total) ++ "%)")
      ∈ format_vm_info pct info ∧
    format_vm_info pct
        { name := "agent-1", state := "Running", ipv4 := none, release := none,
          image_release := none, cpu_count := none,
          memory_total := some (2 * 1024 ^ 3), memory_used := some (1024 ^ 3),
          disk_total := none, disk_used := none } =
      ["Name:  agent-1", "State: Running", "Memory: 1024 MiB / 2048 MiB (50%)"] := by
  constructor
  · simp [format_vm_info, memory_lines, ht, hu]
  · simp only [format_vm_info, info_base_lines, memory_lines, disk_lines]
    rw [hpct]
    decide

/-- C10 witness: the exact-percentage instance at the claim's inputs. -/
theorem info_memory_rendering_witness :
    format_vm_info exact_percent
        { name := "agent-1", state := "Running", ipv4 := none, release := none,
          image_release := none, cpu_count := none,
          memory_total := some (2 * 1024 ^ 3), memory_used := some (1024 ^ 3),
          disk_total := none, disk_used := none } =
      ["Name:  agent-1", "State: Running", "Memory: 1024 MiB / 2048 MiB (50%)"] :=
  (info_memory_rendering exact_percent
    { name := "agent-1", state := "Running", ipv4 := none, release := none,
      image_release := none, cpu_count := none,
      memory_total := some (2 * 1024 ^ 3), memory_used := some (1024 ^ 3),
      disk_total := none, disk_used := none }
    (2 * 1024 ^ 3) (1024 ^ 3) rfl rfl (by decide)).2

/-- C7 counterexample: on the `/v1/vm/{name}` surface of `src/vm.rs`, DELETE
dispatches to the tool's stop, not delete — with a multipass whose delete
succeeds but whose stop fails, the handler returns 500, and with stop
succeeding but delete failing it returns 204. -/
theorem v1_delete_dispatches_to_stop :
    probe_stop_fails.delete "agent-1" = Except.ok () ∧
    terminate_vm probe_stop_fails "agent-1" = Except.error 500 ∧
    probe_delete_fails.stop "agent-1" = Except.ok () ∧
    terminate_vm probe_delete_fails "agent-1" = Except.ok 204 :=
  ⟨rfl, rfl, rfl, rfl⟩

/-- C7 amended: on the primary HTTP surface (`src/server.rs`, DELETE
/vms/{name}) the handler's outcome is decided by the tool's delete
operation, while on the secondary `/v1/vm/{name}` surface of `src/vm.rs` it
is decided by stop. -/
theorem delete_route_dispatch (m : MultipassModel) (name : String) :
    (∀ u, m.delete name = Except.ok u → server_delete_vm m name = (200, true)) ∧
    (∀ e, m.delete name = Except.error e → server_delete_vm m name = (500, false)) ∧
    (∀ u, m.stop name = Except.ok u → terminate_vm m name = Except.ok 204) ∧
    (∀ e, m.stop name = Except.error e → terminate_vm m name = Except.error 500) := by
  refine ⟨?_, ?_, ?_, ?_⟩ <;> intro x hx <;>
    simp [server_delete_vm, handlers.delete_vm, terminate_vm, hx]

/-- C7 amended witness: concrete multipass instances for both surfaces. -/
theorem delete_route_dispatch_witness :
    server_delete_vm probe_stop_fails "agent-1" = (200, true) ∧
    terminate_vm probe_delete_fails "agent-1" = Except.ok 204 :=
  ⟨(delete_route_dispatch probe_stop_fails "agent-1").1 () rfl,
   (delete_route_dispatch probe_delete_fails "agent-1").2.2.1 () rfl⟩
